import Mathlib

/-!
Shallow embedding of the scan lifecycle core of `nuclei-service-demo`:
the data model (`internal/model`), the Postgres scan repository
(`internal/repository/postgres/scan_repository.go`), the nuclei engine
adapter and cancellation registry (`internal/service/nuclei_service.go`),
the submission facade (`internal/service/scan_service.go`) and the polling
worker (`internal/service/scan_worker.go`).

Machine times are modelled as `Nat` ticks; the database is a list of rows;
the in-memory cancellation registry is the list of job ids that currently
hold a `context.CancelFunc`.
-/

namespace NucleiDemo

/-- `model.ScanOptions` (internal/model): tunables for one scan. -/
structure ScanOptions where
  concurrency : Int
  rateLimit   : Int
  timeout     : Int
  retries     : Int
  headless    : Bool
deriving Repr, DecidableEq

/-- The fixed options struct that `ScanRepository.List` / `Get` hard-code on
every scan they return (scan_repository.go lines 97-103 and 151-157). -/
def defaultReadOptions : ScanOptions :=
  { concurrency := 10, rateLimit := 100, timeout := 30, retries := 3, headless := false }

/-- `model.Scan` (internal/model): the in-memory scan record.  `Status` is a
plain string in the source (`type ScanStatus = string`). -/
structure Scan where
  id          : String
  target      : String
  status      : String
  templateIDs : List String
  tags        : List String
  options     : Option ScanOptions
  error       : String
  createdAt   : Nat
  updatedAt   : Nat
  startedAt   : Option Nat
  completedAt : Option Nat
deriving Repr, DecidableEq

/-- `model.ScanResult` (internal/model): one finding emitted by the engine. -/
structure ScanResult where
  id          : String
  scanID      : String
  templateID  : String
  templateName : String
  severity    : String
  matched     : Bool
  host        : String
  matchedAt   : Nat
  matcherName : String
deriving Repr, DecidableEq

/-- `model.StartScanInput` (internal/model): the submission payload. -/
structure StartScanInput where
  target      : String
  templateIDs : List String
  tags        : List String
  options     : Option ScanOptions
deriving Repr, DecidableEq

/-- `model.ParseScanStatus`: maps a stored status string to a status,
defaulting to `pending` on anything unknown. -/
def ParseScanStatus (s : String) : String :=
  if s = "pending" then "pending"
  else if s = "running" then "running"
  else if s = "completed" then "completed"
  else if s = "failed" then "failed"
  else if s = "cancelled" then "cancelled"
  else "pending"

/-- One row of the `scans` table (docker/schema.sql): columns `id`, `target`,
`status`, `created_at`, `updated_at`, `started_at`, `completed_at`, `error`,
`options`, `template_ids`, `tags`.  Nullable columns are `Option`s. -/
structure ScanRow where
  id          : String
  target      : String
  status      : String
  createdAt   : Nat
  updatedAt   : Nat
  startedAt   : Option Nat
  completedAt : Option Nat
  error       : Option String
  options     : Option ScanOptions
  templateIDs : List String
  tags        : List String
deriving Repr, DecidableEq

/-- The scan object built by `ScanRepository.List` / `Get` from a row: the
SELECT reads only `id, target, status, created_at, updated_at`; the Go code
then hard-codes `TemplateIDs = []`, `Tags = []` and a fixed default
`Options`, and the remaining struct fields keep their Go zero values
(`Error = ""`, `StartedAt = nil`, `CompletedAt = nil`). -/
def rowToScan (r : ScanRow) : Scan :=
  { id := r.id, target := r.target, status := ParseScanStatus r.status,
    templateIDs := [], tags := [], options := some defaultReadOptions,
    error := "", createdAt := r.createdAt, updatedAt := r.updatedAt,
    startedAt := none, completedAt := none }

/-- The WHERE clause that `ScanRepository.List` builds: an `AND s.status = _`
conjunct when a status filter is given and an `AND s.target = _` conjunct when
a target filter is given.  The template filter is commented out in the source
and contributes nothing. -/
def rowMatches (status target : Option String) (r : ScanRow) : Bool :=
  (match status with | none => true | some s => r.status = s) &&
  (match target with | none => true | some t => r.target = t)

/-- `ScanRepository.List`.  The source appends `AND s.status = $1` and
`AND s.target = $2` with *fixed* placeholder numbers while the argument list
only receives the filters that are present; Postgres rejects a query whose
highest placeholder index differs from the number of bound arguments, so the
query only executes when the two agree. -/
def scanRepositoryList (store : List ScanRow) (status target templateID : Option String) :
    Except String (List Scan) :=
  let maxPlaceholder : Nat := if target.isSome then 2 else if status.isSome then 1 else 0
  let args : List String := status.toList ++ target.toList
  if maxPlaceholder = args.length then
    .ok ((store.filter (rowMatches status target)).map rowToScan)
  else
    .error "bind message supplies wrong number of parameters"

/-- `ScanRepository.Get`: SELECT by id, `ErrNotFound` when no row exists. -/
def scanRepositoryGet (store : List ScanRow) (id : String) : Except String Scan :=
  match store.find? (fun r => r.id = id) with
  | none => .error "not found"
  | some r => .ok (rowToScan r)

/-- `ScanRepository.Create`: INSERT of `id, target, status, created_at,
updated_at, template_ids, tags`; the `started_at`, `completed_at`, `error` and
`options` columns are absent from the statement and keep their NULL
defaults. -/
def scanRepositoryCreate (store : List ScanRow) (scan : Scan) (now : Nat) : List ScanRow :=
  store ++ [{ id := scan.id, target := scan.target, status := scan.status,
              createdAt := now, updatedAt := now,
              startedAt := none, completedAt := none, error := none, options := none,
              templateIDs := scan.templateIDs, tags := scan.tags }]

/-- The per-row effect of `ScanRepository.Update`: the UPDATE statement sets
exactly `target`, `status` and `updated_at` on the row whose id matches. -/
def updateRowApply (scan : Scan) (now : Nat) (r : ScanRow) : ScanRow :=
  if r.id = scan.id then { r with target := scan.target, status := scan.status, updatedAt := now }
  else r

/-- `ScanRepository.Update`. -/
def scanRepositoryUpdate (store : List ScanRow) (scan : Scan) (now : Nat) : List ScanRow :=
  store.map (updateRowApply scan now)

/-- `ScanRepository.AddResult`: INSERT of one result row. -/
def scanRepositoryAddResult (results : List ScanResult) (r : ScanResult) : List ScanResult :=
  results ++ [r]

/-- `scanService.StartScan` (scan_service.go): builds a scan with a fresh id
and `Status = pending` from the input and persists it via `Create`.  The body
performs no validation of the target; the only failure channel is the
repository call.  The fresh uuid is passed in as `newID`. -/
def scanServiceStartScan (store : List ScanRow) (input : StartScanInput)
    (newID : String) (now : Nat) : Except String (List ScanRow × Scan) :=
  let scan : Scan :=
    { id := newID, target := input.target, templateIDs := input.templateIDs,
      tags := input.tags, options := input.options, status := "pending",
      error := "", createdAt := now, updatedAt := now,
      startedAt := none, completedAt := none }
  .ok (scanRepositoryCreate store scan now, scan)

/-- Terminal outcome of one engine run, as the nuclei library reports it to
the adapter: `ExecuteCallbackWithCtx` returns nil on success, the engine's
error on failure, and the context error when the scan context was cancelled
mid-run. -/
inductive EngineOutcome
  | success
  | failure (reason : String)
  | cancelled
deriving Repr, DecidableEq

/-- One `output.ResultEvent` delivered to the adapter's callback (the fields
the callback actually reads). -/
structure EngineEvent where
  templateID  : String
  host        : String
  matcherName : String
deriving Repr, DecidableEq

/-- The observable behaviour of one engine run: whether `NewNucleiEngineCtx`
failed, the events delivered to the callback before termination, and the
terminal outcome. -/
structure EngineRun where
  initError : Option String
  events    : List EngineEvent
  outcome   : EngineOutcome
deriving Repr, DecidableEq

/-- The adapter's callback (nuclei_service.go lines 102-125) mapping one
engine event to a `ScanResult`: it fills `ID` (matcher name + clock),
`ScanID`, `TemplateID`, `Host` and `MatchedAt`; every other field keeps its
Go zero value. -/
def eventToResult (scanID : String) (now : Nat) (e : EngineEvent) : ScanResult :=
  { id := e.matcherName ++ ":" ++ toString now, scanID := scanID,
    templateID := e.templateID, templateName := "", severity := "",
    matched := false, host := e.host, matchedAt := now, matcherName := "" }

/-- One `nucleiLib.NucleiSDKOptions` entry the adapter can place in the
option slice it hands to `NewNucleiEngineCtx` (nuclei_service.go lines
56-84).  These five constructors are the only SDK options the source ever
appends. -/
inductive NucleiSDKOption
  | withTemplateFilters (ids : List String) (severity : String)
  | withTemplatesOrWorkflows (dirs : List String)
  | disableUpdateCheck
  | withGlobalRateLimit (maxTokens : Int)
  | enableHeadlessWithOpts
deriving Repr, DecidableEq

/-- The SDK option slice `nucleiService.StartScan` builds: template filters,
template sources and the update-check switch unconditionally; then, only when
`scan.Options != nil`, a global rate limit when `RateLimit > 0` and headless
mode when `Headless` is set.  The concurrency branch is commented out in the
source, and no option is ever appended for timeout or retries. -/
def buildSDKOptions (templatesDir : String) (scan : Scan) : List NucleiSDKOption :=
  let opts : List NucleiSDKOption :=
    [ .withTemplateFilters scan.templateIDs "critical,high,medium,low,info",
      .withTemplatesOrWorkflows [templatesDir],
      .disableUpdateCheck ]
  match scan.options with
  | none => opts
  | some o =>
    let opts := if o.rateLimit > 0 then opts ++ [.withGlobalRateLimit o.rateLimit] else opts
    let opts := if o.headless then opts ++ [.enableHeadlessWithOpts] else opts
    opts

/-- The rate limit the engine ends up configured with: the argument of the
last `WithGlobalRateLimitCtx` option in the slice, if any. -/
def sdkRateLimit (opts : List NucleiSDKOption) : Option Int :=
  opts.foldl (fun acc o => match o with | .withGlobalRateLimit n => some n | _ => acc) none

/-- Whether the option slice enables headless execution. -/
def sdkHeadless (opts : List NucleiSDKOption) : Bool :=
  opts.any (fun o => o = .enableHeadlessWithOpts)

/-- Removal of a key from the cancellation registry (`delete(s.cancels, id)`).
The registry is modelled as the list of job ids holding a cancel handle. -/
def removeCancel (cancels : List String) (id : String) : List String :=
  cancels.filter (fun c => c ≠ id)

/-- Map insert `s.cancels[id] = cancel`: the key is present afterwards,
without duplication. -/
def insertCancel (cancels : List String) (id : String) : List String :=
  id :: removeCancel cancels id

/-- `nucleiService.StartScan` (nuclei_service.go lines 42-149) as a function
of the engine's behaviour `run`: it first registers a cancel handle for the
scan; on engine initialization failure it returns the wrapped error *without*
removing the handle; otherwise it buffers all callback results in a local
slice, and at termination removes the handle and returns either the buffered
results (nil engine error) or the wrapped engine error with a nil slice.
Returns the registry after the call together with the Go return value. -/
def nucleiStartScan (cancels : List String) (scan : Scan) (run : EngineRun)
    (now : Nat) : List String × Except String (List ScanResult) :=
  let cancels1 := insertCancel cancels scan.id
  match run.initError with
  | some e => (cancels1, .error ("initializing nuclei engine: " ++ e))
  | none =>
    let results := run.events.map (eventToResult scan.id now)
    match run.outcome with
    | .success => (removeCancel cancels1 scan.id, .ok results)
    | .failure r => (removeCancel cancels1 scan.id, .error ("nuclei execution: " ++ r))
    | .cancelled => (removeCancel cancels1 scan.id, .error ("nuclei execution: context canceled"))

/-- `nucleiService.CancelScan` (nuclei_service.go lines 152-164): under the
mutex, look up the handle; when present invoke it, delete it and return nil;
when absent return the `no running scan found` error.  Returns the registry
after the call together with the Go error value. -/
def nucleiCancelScan (cancels : List String) (scanID : String) :
    List String × Except String Unit :=
  if scanID ∈ cancels then (removeCancel cancels scanID, .ok ())
  else (cancels, .error ("no running scan found with ID " ++ scanID))

/-- The mutable state the worker acts on: the `scans` table, the
`scan_results` table and the in-process cancellation registry. -/
structure WorkerState where
  store        : List ScanRow
  resultsTable : List ScanResult
  cancels      : List String
deriving Repr, DecidableEq

/-- The per-scan body of `ScanWorker.processPendingScans` (scan_worker.go
lines 64-123): set the scan's status to `running` and persist; run the
engine adapter; on error set status `failed` with the error text and persist;
on success append every returned result via `AddResult` and persist status
`completed`.  `env` gives the engine behaviour for each scan id; `t` is the
clock tick used for the timestamps written during this iteration. -/
def processScan (env : String → EngineRun) (t : Nat) (st : WorkerState)
    (scan : Scan) : WorkerState :=
  let scan1 := { scan with status := "running" }
  let store1 := scanRepositoryUpdate st.store scan1 t
  let call := nucleiStartScan st.cancels scan1 (env scan.id) t
  match call.2 with
  | .error e =>
    { store := scanRepositoryUpdate store1 { scan1 with status := "failed", error := e } t,
      resultsTable := st.resultsTable, cancels := call.1 }
  | .ok results =>
    { store := scanRepositoryUpdate store1 { scan1 with status := "completed" } t,
      resultsTable := results.foldl scanRepositoryAddResult st.resultsTable,
      cancels := call.1 }

/-- `ScanWorker.processPendingScans`: list the pending scans and process each
in query order; a List error aborts the tick with no processing. -/
def processPendingScans (env : String → EngineRun) (t : Nat) (st : WorkerState) :
    WorkerState :=
  match scanRepositoryList st.store (some "pending") none none with
  | .error _ => st
  | .ok scans => scans.foldl (processScan env t) st

/-- Spec-side translation of `job.Options` into the engine configuration, as
the spec words it: every option is translated, and a missing or zero value
receives the documented default (concurrency=10, rate_limit=100, timeout=30,
retries=3, headless=false).  Used only to compare the spec's demanded
translation against the adapter's actual option slice. -/
def specTranslateOptions (o : Option ScanOptions) : ScanOptions :=
  match o with
  | none => { concurrency := 10, rateLimit := 100, timeout := 30, retries := 3, headless := false }
  | some o =>
    { concurrency := if o.concurrency = 0 then 10 else o.concurrency,
      rateLimit := if o.rateLimit = 0 then 100 else o.rateLimit,
      timeout := if o.timeout = 0 then 30 else o.timeout,
      retries := if o.retries = 0 then 3 else o.retries,
      headless := o.headless }

end NucleiDemo

namespace NucleiDemo

/-- C3 (corrected): the claim says a submission with an empty target is
rejected with a validation error and no job is created.  At the concrete
input `target = ""` the facade instead returns success and persists a new
pending job: the store grows from zero rows to one. -/
theorem C3_counterexample :
    scanServiceStartScan [] { target := "", templateIDs := [], tags := [], options := none }
        "id-1" 0 =
      .ok ([{ id := "id-1", target := "", status := "pending", createdAt := 0, updatedAt := 0,
              startedAt := none, completedAt := none, error := none, options := none,
              templateIDs := [], tags := [] }],
           { id := "id-1", target := "", status := "pending", templateIDs := [], tags := [],
             options := none, error := "", createdAt := 0, updatedAt := 0,
             startedAt := none, completedAt := none }) := rfl

/-- C3 (amended): `submit` performs no validation of the target at all; for
every input — the empty target included — it assigns the fresh identifier,
persists the job with Status=Pending as a new store entry, and returns the
created job synchronously. -/
theorem C3_submit_never_validates (store : List ScanRow) (input : StartScanInput)
    (newID : String) (now : Nat) :
    ∃ out : List ScanRow × Scan,
      scanServiceStartScan store input newID now = .ok out ∧
      out.2.status = "pending" ∧ out.2.target = input.target ∧ out.2.id = newID ∧
      out.1.length = store.length + 1 := by
  refine ⟨_, rfl, rfl, rfl, rfl, ?_⟩
  simp [scanRepositoryCreate]

/-- C9 (confirmed): `CancelScan` invokes and removes the handle when one is
registered (returning success), and when none is registered it returns the
`no running scan found` error naming the id, leaving the registry unchanged;
hence of two cancel calls on the same id, the first succeeds and the second
reports `no running scan found`. -/
theorem C9_cancel_semantics (cancels : List String) (id : String) :
    (id ∈ cancels →
      (nucleiCancelScan cancels id).2 = .ok () ∧
      id ∉ (nucleiCancelScan cancels id).1 ∧
      (nucleiCancelScan (nucleiCancelScan cancels id).1 id).2 =
        .error ("no running scan found with ID " ++ id)) ∧
    (id ∉ cancels →
      (nucleiCancelScan cancels id).2 = .error ("no running scan found with ID " ++ id) ∧
      (nucleiCancelScan cancels id).1 = cancels) := by
  constructor
  · intro h
    have hout : id ∉ removeCancel cancels id := by
      simp [removeCancel]
    refine ⟨by simp [nucleiCancelScan, h], ?_, ?_⟩
    · simpa [nucleiCancelScan, h] using hout
    · simp [nucleiCancelScan, h, hout]
  · intro h
    simp [nucleiCancelScan, h]

/-- C9 witness: on the singleton registry `["job-9"]`, cancelling `job-9`
succeeds and a second cancel reports `no running scan found`. -/
theorem C9_cancel_semantics_witness :
    (nucleiCancelScan ["job-9"] "job-9").2 = .ok () ∧
    (nucleiCancelScan (nucleiCancelScan ["job-9"] "job-9").1 "job-9").2 =
      .error ("no running scan found with ID " ++ "job-9") := by
  have h := (C9_cancel_semantics ["job-9"] "job-9").1 (by simp)
  exact ⟨h.1, h.2.2⟩

/-- C7 (corrected as stated by the claim): the claim says the handle is
removed on every exit path, engine initialization failure included.  On the
init-failure path the source returns before the `delete`, so the registry
still holds the job's handle after the call returns. -/
theorem C7_counterexample :
    (nucleiStartScan []
        { id := "s7", target := "http://x", status := "running", templateIDs := [], tags := [],
          options := none, error := "", createdAt := 0, updatedAt := 0,
          startedAt := none, completedAt := none }
        { initError := some "bad templates", events := [], outcome := .success } 0).1 =
      ["s7"] := rfl

/-- C7 (amended): the handle is removed from the registry on natural
completion, on execution failure and on cancellation, but when engine
initialization fails the handle registered at entry is left in the registry
(it leaks). -/
theorem C7_handle_release (cancels : List String) (scan : Scan) (run : EngineRun) (now : Nat) :
    (run.initError = none → scan.id ∉ (nucleiStartScan cancels scan run now).1) ∧
    (∀ e, run.initError = some e → scan.id ∈ (nucleiStartScan cancels scan run now).1) := by
  obtain ⟨ie, ev, oc⟩ := run
  constructor
  · intro h
    have hie : ie = none := h
    subst hie
    cases oc <;> simp [nucleiStartScan, removeCancel]
  · intro e h
    have hie : ie = some e := h
    subst hie
    simp [nucleiStartScan, insertCancel]

/-- C7 witness: on a successful run starting from the empty registry, the
job's handle is absent afterwards. -/
theorem C7_handle_release_witness :
    "s7b" ∉ (nucleiStartScan []
        { id := "s7b", target := "http://x", status := "running", templateIDs := [], tags := [],
          options := none, error := "", createdAt := 0, updatedAt := 0,
          startedAt := none, completedAt := none }
        { initError := none, events := [], outcome := .success } 0).1 :=
  (C7_handle_release []
      { id := "s7b", target := "http://x", status := "running", templateIDs := [], tags := [],
        options := none, error := "", createdAt := 0, updatedAt := 0,
        startedAt := none, completedAt := none }
      { initError := none, events := [], outcome := .success } 0).1 rfl

/-- C5 (corrected as stated by the claim): on a scan whose options are
`{concurrency := 5, rateLimit := 0, timeout := 7, retries := 2, headless := false}`
the spec's translation demands an engine configuration with concurrency 5,
rate limit 100 (the default for the zero value), timeout 7 and retries 2;
the adapter's actual option slice is just the three unconditional entries —
in particular it carries no rate-limit setting at all, and no concurrency,
timeout or retries setting exists anywhere in the slice. -/
theorem C5_counterexample :
    buildSDKOptions "./templates"
        { id := "s5", target := "http://x", status := "running", templateIDs := [], tags := [],
          options := some { concurrency := 5, rateLimit := 0, timeout := 7, retries := 2,
                            headless := false },
          error := "", createdAt := 0, updatedAt := 0, startedAt := none, completedAt := none } =
      [ .withTemplateFilters [] "critical,high,medium,low,info",
        .withTemplatesOrWorkflows ["./templates"], .disableUpdateCheck ] ∧
    specTranslateOptions (some { concurrency := 5, rateLimit := 0, timeout := 7, retries := 2,
                                 headless := false }) =
      { concurrency := 5, rateLimit := 100, timeout := 7, retries := 2, headless := false } :=
  ⟨rfl, rfl⟩

/-- C5 (amended): the adapter translates only two of the options — a global
rate limit equal to `RateLimit` is configured exactly when `RateLimit > 0`
(a zero value yields no rate-limit option rather than the documented default
100), and headless mode exactly when `Headless` is set; no engine option is
ever produced for concurrency, timeout or retries, and a nil options struct
produces only the three unconditional entries. -/
theorem C5_adapter_translation (d : String) (scan : Scan) :
    sdkRateLimit (buildSDKOptions d scan) =
      (match scan.options with
        | none => none
        | some o => if o.rateLimit > 0 then some o.rateLimit else none) ∧
    sdkHeadless (buildSDKOptions d scan) =
      (match scan.options with | none => false | some o => o.headless) ∧
    ∀ o ∈ buildSDKOptions d scan,
      o = .withTemplateFilters scan.templateIDs "critical,high,medium,low,info" ∨
      o = .withTemplatesOrWorkflows [d] ∨ o = .disableUpdateCheck ∨
      (∃ n, o = .withGlobalRateLimit n) ∨ o = .enableHeadlessWithOpts := by
  rcases hopt : scan.options with _ | o
  · refine ⟨?_, ?_, ?_⟩
    · simp [buildSDKOptions, hopt, sdkRateLimit]
    · simp [buildSDKOptions, hopt, sdkHeadless]
    · intro x hx
      simp only [buildSDKOptions, hopt, List.mem_cons, List.mem_singleton] at hx
      tauto
  · refine ⟨?_, ?_, ?_⟩
    · by_cases hrl : o.rateLimit > 0 <;> by_cases hh : o.headless = true <;>
        simp [buildSDKOptions, hopt, hrl, hh, sdkRateLimit]
    · by_cases hrl : o.rateLimit > 0 <;> by_cases hh : o.headless = true <;>
        simp [buildSDKOptions, hopt, hrl, hh, sdkHeadless]
    · intro x hx
      by_cases hrl : o.rateLimit > 0 <;> by_cases hh : o.headless = true <;>
        simp [buildSDKOptions, hopt, hrl, hh] at hx <;> aesop

/-- C5 witness: on a scan with rate limit 7 and headless set, the adapter
configures a global rate limit of 7 and enables headless mode. -/
theorem C5_adapter_translation_witness :
    sdkRateLimit (buildSDKOptions "./t"
        { id := "s5w", target := "http://x", status := "running", templateIDs := [], tags := [],
          options := some { concurrency := 0, rateLimit := 7, timeout := 0, retries := 0,
                            headless := true },
          error := "", createdAt := 0, updatedAt := 0,
          startedAt := none, completedAt := none }) = some 7 ∧
    sdkHeadless (buildSDKOptions "./t"
        { id := "s5w", target := "http://x", status := "running", templateIDs := [], tags := [],
          options := some { concurrency := 0, rateLimit := 7, timeout := 0, retries := 0,
                            headless := true },
          error := "", createdAt := 0, updatedAt := 0,
          startedAt := none, completedAt := none }) = true := by
  have h := C5_adapter_translation "./t"
      { id := "s5w", target := "http://x", status := "running", templateIDs := [], tags := [],
        options := some { concurrency := 0, rateLimit := 7, timeout := 0, retries := 0,
                          headless := true },
        error := "", createdAt := 0, updatedAt := 0,
        startedAt := none, completedAt := none }
  exact ⟨by rw [h.1]; rfl, by rw [h.2.1]⟩

/-- C6 (corrected as stated by the claim): with a single stored job whose
target is `http://x` and whose selector column is `["other"]`, a list with
only the target filter `http://x` — which by the claim must return exactly
that job — instead fails with a parameter-count error (the target conjunct
is numbered `$2` but only one argument is bound); and a list with only the
template filter `tmpl-z` — which by the claim must return no jobs, since the
selectors do not include `tmpl-z` — returns the job anyway. -/
theorem C6_counterexample :
    scanRepositoryList
        [{ id := "s6", target := "http://x", status := "pending", createdAt := 0, updatedAt := 0,
           startedAt := none, completedAt := none, error := none, options := none,
           templateIDs := ["other"], tags := [] }]
        none (some "http://x") none =
      .error "bind message supplies wrong number of parameters" ∧
    scanRepositoryList
        [{ id := "s6", target := "http://x", status := "pending", createdAt := 0, updatedAt := 0,
           startedAt := none, completedAt := none, error := none, options := none,
           templateIDs := ["other"], tags := [] }]
        none none (some "tmpl-z") =
      .ok [rowToScan
        { id := "s6", target := "http://x", status := "pending", createdAt := 0, updatedAt := 0,
          startedAt := none, completedAt := none, error := none, options := none,
          templateIDs := ["other"], tags := [] }] :=
  ⟨rfl, rfl⟩

/-- Observable behaviour of `ScanRepository.List`: it succeeds exactly when
the placeholder numbering is consistent with the bound arguments — that is,
unless a target filter is given without a status filter — and on success
returns the rows matching the present status/target filters, the template
filter playing no part. -/
lemma scanRepositoryList_eq (store : List ScanRow) (s t tmpl : Option String) :
    scanRepositoryList store s t tmpl =
      if t.isSome && !s.isSome then
        .error "bind message supplies wrong number of parameters"
      else .ok ((store.filter (rowMatches s t)).map rowToScan) := by
  cases s <;> cases t <;> simp [scanRepositoryList]

/-- C6 (amended): `list` applies the status filter alone, or status and
target conjunctively, returning exactly the matching rows; a target filter
without a status filter makes the query fail with a parameter-count error
instead of returning jobs; and the template filter is ignored entirely — it
imposes no constraint on the result. -/
theorem C6_list_filters (store : List ScanRow) (s t tmpl : Option String) :
    scanRepositoryList store s t tmpl =
      if t.isSome && !s.isSome then
        .error "bind message supplies wrong number of parameters"
      else .ok ((store.filter (rowMatches s t)).map rowToScan) :=
  scanRepositoryList_eq store s t tmpl

/-- C10 (confirmed): every scan returned by the repository's `List` or `Get`
carries empty template selectors, empty tags and the fixed default options,
regardless of what was persisted at creation; consequently the worker, which
feeds `List` output to the adapter after flipping the status to `running`,
builds the engine's option slice from empty selectors and the default
options — the slice is always exactly the three unconditional entries plus
the default global rate limit of 100. -/
theorem C10_reads_force_defaults (store : List ScanRow) (s t tmpl : Option String)
    (id : String) :
    (∀ scans, scanRepositoryList store s t tmpl = .ok scans →
      ∀ sc ∈ scans, sc.templateIDs = [] ∧ sc.tags = [] ∧
        sc.options = some defaultReadOptions ∧
        ∀ d, buildSDKOptions d { sc with status := "running" } =
          [ .withTemplateFilters [] "critical,high,medium,low,info",
            .withTemplatesOrWorkflows [d], .disableUpdateCheck,
            .withGlobalRateLimit 100 ]) ∧
    (∀ sc, scanRepositoryGet store id = .ok sc →
      sc.templateIDs = [] ∧ sc.tags = [] ∧ sc.options = some defaultReadOptions) := by
  constructor
  · intro scans hscans sc hsc
    rw [scanRepositoryList_eq] at hscans
    have hmem : sc ∈ (store.filter (rowMatches s t)).map rowToScan := by
      by_cases hc : (t.isSome && !s.isSome) = true
      · rw [if_pos hc] at hscans
        simp at hscans
      · rw [if_neg hc] at hscans
        injection hscans with h
        rw [← h] at hsc
        exact hsc
    obtain ⟨r, _, hr⟩ := List.mem_map.mp hmem
    subst hr
    exact ⟨rfl, rfl, rfl, fun d => rfl⟩
  · intro sc hsc
    unfold scanRepositoryGet at hsc
    cases hfind : store.find? (fun r => r.id = id) with
    | none => rw [hfind] at hsc; cases hsc
    | some r =>
      rw [hfind] at hsc
      injection hsc with h
      rw [← h]
      exact ⟨rfl, rfl, rfl⟩

/-- C10 witness: on a store holding one pending row created with non-empty
selectors and no options column, an unfiltered list returns that scan with
empty selectors, empty tags and the default options. -/
theorem C10_reads_force_defaults_witness :
    (rowToScan { id := "s10", target := "http://x", status := "pending", createdAt := 0,
                 updatedAt := 0, startedAt := none, completedAt := none, error := none,
                 options := none, templateIDs := ["tpl-a"], tags := ["tag-a"] }).templateIDs
        = [] ∧
    (rowToScan { id := "s10", target := "http://x", status := "pending", createdAt := 0,
                 updatedAt := 0, startedAt := none, completedAt := none, error := none,
                 options := none, templateIDs := ["tpl-a"], tags := ["tag-a"] }).options
        = some defaultReadOptions := by
  have h := (C10_reads_force_defaults
      [{ id := "s10", target := "http://x", status := "pending", createdAt := 0,
         updatedAt := 0, startedAt := none, completedAt := none, error := none,
         options := none, templateIDs := ["tpl-a"], tags := ["tag-a"] }]
      none none none "s10").1
      [rowToScan { id := "s10", target := "http://x", status := "pending", createdAt := 0,
                   updatedAt := 0, startedAt := none, completedAt := none, error := none,
                   options := none, templateIDs := ["tpl-a"], tags := ["tag-a"] }]
      rfl
      (rowToScan { id := "s10", target := "http://x", status := "pending", createdAt := 0,
                   updatedAt := 0, startedAt := none, completedAt := none, error := none,
                   options := none, templateIDs := ["tpl-a"], tags := ["tag-a"] })
      (by simp)
  exact ⟨h.1, h.2.2.1⟩

/-- Folding `AddResult` over a batch of results appends the batch to the
results table in order. -/
lemma foldl_addResult (l acc : List ScanResult) :
    l.foldl scanRepositoryAddResult acc = acc ++ l := by
  induction l generalizing acc with
  | nil => simp
  | cons x xs ih => simp [scanRepositoryAddResult, ih]

/-- C1 (corrected as stated by the claim): a run in which the engine emits
one result event and then fails.  The claim says the result emitted before
the failure is persisted; after the worker processes the job, the results
table is still empty — the emitted result was discarded with the failed
run. -/
theorem C1_counterexample :
    (processPendingScans
        (fun _ => { initError := none,
                    events := [{ templateID := "t1", host := "h1", matcherName := "m1" }],
                    outcome := .failure "engine blew up" })
        1
        { store := [{ id := "s1", target := "http://x", status := "pending", createdAt := 0,
                      updatedAt := 0, startedAt := none, completedAt := none, error := none,
                      options := none, templateIDs := [], tags := [] }],
          resultsTable := [], cancels := [] }).resultsTable = [] := rfl

/-- C1 (amended): results are buffered in the adapter's memory for the whole
run and persisted only as a batch after the run ends: when the run succeeds
the whole batch is appended at the end, and when engine initialization or
execution fails — or the run is cancelled — no emitted result is persisted
at all. -/
theorem C1_results_batch_not_streamed (env : String → EngineRun) (t : Nat)
    (st : WorkerState) (scan : Scan) :
    (processScan env t st scan).resultsTable =
      match (env scan.id).initError, (env scan.id).outcome with
      | none, .success => st.resultsTable ++ ((env scan.id).events.map (eventToResult scan.id t))
      | _, _ => st.resultsTable := by
  rcases hrun : env scan.id with ⟨ie, ev, oc⟩
  cases ie <;> cases oc <;>
    simp [processScan, nucleiStartScan, hrun, foldl_addResult]

/-- A row of the updated store whose id is the updated scan's id carries the
scan's status. -/
lemma mem_update_status (store : List ScanRow) (scan : Scan) (now : Nat) (r : ScanRow)
    (hr : r ∈ scanRepositoryUpdate store scan now) (hid : r.id = scan.id) :
    r.status = scan.status := by
  obtain ⟨r0, _, hfr⟩ := List.mem_map.mp hr
  subst hfr
  unfold updateRowApply at hid ⊢
  by_cases h : r0.id = scan.id
  · simp [h]
  · simp only [h, if_false] at hid

/-- C2 (corrected as stated by the claim): one pending job whose engine run
terminates because cancellation was honored; the claim says the job ends
with Status=Cancelled, but after the tick the stored status is `failed`. -/
theorem C2_counterexample :
    ((processPendingScans (fun _ => { initError := none, events := [], outcome := .cancelled }) 1
        { store := [{ id := "s2", target := "http://x", status := "pending", createdAt := 0,
                      updatedAt := 0, startedAt := none, completedAt := none, error := none,
                      options := none, templateIDs := [], tags := [] }],
          resultsTable := [], cancels := [] }).store.map (fun r => r.status)) = ["failed"] := rfl

/-- C2 (amended): when a claimed job's execution terminates because
cancellation was invoked and honored by the engine, the dispatcher observes
only the execution error and sets the job's status to `failed` (with the
cancellation error text) — the status `cancelled` is never assigned. -/
theorem C2_cancellation_ends_failed (env : String → EngineRun) (t : Nat) (st : WorkerState)
    (scan : Scan) (h1 : (env scan.id).initError = none)
    (h2 : (env scan.id).outcome = .cancelled) :
    ∀ r ∈ (processScan env t st scan).store, r.id = scan.id → r.status = "failed" := by
  intro r hr hid
  rcases hrun : env scan.id with ⟨ie, ev, oc⟩
  rw [hrun] at h1 h2
  have hie : ie = none := h1
  have hoc : oc = .cancelled := h2
  subst hie hoc
  simp only [processScan, nucleiStartScan, hrun] at hr
  exact mem_update_status _ _ _ _ hr hid

/-- C2 witness: the concrete cancelled run of `C2_cancellation_ends_failed`
on a one-row store leaves the row with status `failed`. -/
theorem C2_cancellation_ends_failed_witness :
    ({ id := "s2w", target := "http://x", status := "failed", createdAt := 0, updatedAt := 1,
       startedAt := none, completedAt := none, error := none, options := none,
       templateIDs := [], tags := [] } : ScanRow).status = "failed" :=
  C2_cancellation_ends_failed
    (fun _ => { initError := none, events := [], outcome := .cancelled }) 1
    { store := [{ id := "s2w", target := "http://x", status := "pending", createdAt := 0,
                  updatedAt := 0, startedAt := none, completedAt := none, error := none,
                  options := none, templateIDs := [], tags := [] }],
      resultsTable := [], cancels := [] }
    { id := "s2w", target := "http://x", status := "pending", templateIDs := [], tags := [],
      options := some defaultReadOptions, error := "", createdAt := 0, updatedAt := 0,
      startedAt := none, completedAt := none }
    rfl rfl
    { id := "s2w", target := "http://x", status := "failed", createdAt := 0, updatedAt := 1,
      startedAt := none, completedAt := none, error := none, options := none,
      templateIDs := [], tags := [] }
    (by decide) rfl

/-- Every row of the store has NULL `started_at` and `completed_at`. -/
def checkNullTimestamps (store : List ScanRow) : Bool :=
  store.all (fun r => r.startedAt.isNone && r.completedAt.isNone)

/-- The UPDATE statement touches neither `started_at` nor `completed_at`. -/
lemma updateRowApply_timestamps (scan : Scan) (now : Nat) (r : ScanRow) :
    (updateRowApply scan now r).startedAt = r.startedAt ∧
    (updateRowApply scan now r).completedAt = r.completedAt := by
  unfold updateRowApply
  split <;> exact ⟨rfl, rfl⟩

/-- `Update` preserves all-NULL timestamps. -/
lemma checkNullTimestamps_update (store : List ScanRow) (scan : Scan) (now : Nat) :
    checkNullTimestamps (scanRepositoryUpdate store scan now) = checkNullTimestamps store := by
  unfold checkNullTimestamps scanRepositoryUpdate
  rw [List.all_map]
  congr 1
  funext r
  rw [Function.comp_apply, (updateRowApply_timestamps scan now r).1,
    (updateRowApply_timestamps scan now r).2]

/-- One worker iteration preserves all-NULL timestamps. -/
lemma checkNullTimestamps_processScan (env : String → EngineRun) (t : Nat)
    (st : WorkerState) (scan : Scan) :
    checkNullTimestamps (processScan env t st scan).store = checkNullTimestamps st.store := by
  unfold processScan
  dsimp only
  split <;> simp [checkNullTimestamps_update]

/-- A whole tick's fold preserves all-NULL timestamps. -/
lemma checkNullTimestamps_fold (env : String → EngineRun) (t : Nat) (scans : List Scan)
    (st : WorkerState) :
    checkNullTimestamps ((scans.foldl (processScan env t) st).store) =
      checkNullTimestamps st.store := by
  induction scans generalizing st with
  | nil => rfl
  | cons x xs ih => rw [List.foldl_cons, ih, checkNullTimestamps_processScan]

/-- C4 (corrected as stated by the claim): one pending job whose engine run
succeeds.  The claim requires the Pending→Running transition to set
`started_at` and entry to the terminal state to set `completed_at`; after
the tick the row is `completed` with both timestamps still NULL. -/
theorem C4_counterexample :
    ((processPendingScans (fun _ => { initError := none, events := [], outcome := .success }) 1
        { store := [{ id := "s4", target := "http://x", status := "pending", createdAt := 0,
                      updatedAt := 0, startedAt := none, completedAt := none, error := none,
                      options := none, templateIDs := [], tags := [] }],
          resultsTable := [], cancels := [] }).store.map
      (fun r => (r.status, r.startedAt, r.completedAt))) = [("completed", none, none)] := rfl

/-- C4 (amended): no operation ever sets `started_at` or `completed_at`:
creation inserts them as NULL, the worker's UPDATE writes only target,
status and `updated_at`, so both timestamps remain NULL in every reachable
state — in particular Running rows have NULL `started_at` and terminal rows
have NULL `completed_at`, and the claimed biconditionals fail for every
non-Pending job. -/
theorem C4_timestamps_never_set (env : String → EngineRun) (t : Nat) (st : WorkerState)
    (store : List ScanRow) (scan : Scan) (now : Nat)
    (h : checkNullTimestamps st.store = true) :
    checkNullTimestamps (processPendingScans env t st).store = true ∧
    checkNullTimestamps (scanRepositoryCreate store scan now) =
      checkNullTimestamps store := by
  constructor
  · unfold processPendingScans
    split
    · exact h
    · rw [checkNullTimestamps_fold]
      exact h
  · unfold checkNullTimestamps scanRepositoryCreate
    rw [List.all_append]
    simp

/-- C4 witness: the successful run of `C4_counterexample`'s shape keeps the
all-NULL timestamp invariant, and creating a row appends NULL timestamps. -/
theorem C4_timestamps_never_set_witness :
    checkNullTimestamps (processPendingScans
        (fun _ => { initError := none, events := [], outcome := .success }) 1
        { store := [{ id := "s4w", target := "http://x", status := "pending", createdAt := 0,
                      updatedAt := 0, startedAt := none, completedAt := none, error := none,
                      options := none, templateIDs := [], tags := [] }],
          resultsTable := [], cancels := [] }).store = true :=
  (C4_timestamps_never_set
    (fun _ => { initError := none, events := [], outcome := .success }) 1
    { store := [{ id := "s4w", target := "http://x", status := "pending", createdAt := 0,
                  updatedAt := 0, startedAt := none, completedAt := none, error := none,
                  options := none, templateIDs := [], tags := [] }],
      resultsTable := [], cancels := [] }
    [] { id := "x", target := "y", status := "pending", templateIDs := [], tags := [],
         options := none, error := "", createdAt := 0, updatedAt := 0,
         startedAt := none, completedAt := none } 0
    (by decide)).1

/-- The write-once part of a stored row: identity, target, the options
column and the selector columns. -/
def immutableView (r : ScanRow) :
    String × String × Option ScanOptions × List String × List String :=
  (r.id, r.target, r.options, r.templateIDs, r.tags)

/-- The scan handed to `Update` agrees on `target` with every stored row of
its id — the situation the worker is always in, since it only ever updates
scans read back from the store. -/
def TargetOk (store : List ScanRow) (scan : Scan) : Prop :=
  ∀ r ∈ store, r.id = scan.id → r.target = scan.target

/-- When the updated scan's target agrees with the stored one, `Update`
leaves every row's write-once fields untouched. -/
lemma update_immutableView (store : List ScanRow) (scan : Scan) (now : Nat)
    (h : TargetOk store scan) :
    (scanRepositoryUpdate store scan now).map immutableView = store.map immutableView := by
  unfold scanRepositoryUpdate
  rw [List.map_map]
  apply List.map_congr_left
  intro r hr
  rw [Function.comp_apply]
  unfold updateRowApply immutableView
  by_cases hid : r.id = scan.id
  · simp [hid, h r hr hid]
  · simp [hid]

/-- `TargetOk` transfers across stores with equal write-once views. -/
lemma targetOk_transfer (store store' : List ScanRow) (scan : Scan)
    (hview : store'.map immutableView = store.map immutableView)
    (h : TargetOk store scan) : TargetOk store' scan := by
  intro r' hr' hid'
  have hmem : immutableView r' ∈ store.map immutableView := by
    rw [← hview]
    exact List.mem_map_of_mem _ hr'
  obtain ⟨r, hr, heq⟩ := List.mem_map.mp hmem
  unfold immutableView at heq
  simp only [Prod.mk.injEq] at heq
  obtain ⟨h1, h2, -⟩ := heq
  rw [← h2]
  exact h r hr (h1.trans hid')

/-- Two successive updates — the claim-to-running one and the terminal
one — leave every row's write-once fields untouched, when the two updated
scans share id and target and agree with the store. -/
lemma update2_immutableView (store : List ScanRow) (a b : Scan) (now : Nat)
    (hab : a.id = b.id) (hab2 : a.target = b.target) (ha : TargetOk store a) :
    (scanRepositoryUpdate (scanRepositoryUpdate store a now) b now).map immutableView =
      store.map immutableView := by
  have h1 := update_immutableView store a now ha
  have hb : TargetOk (scanRepositoryUpdate store a now) b := by
    intro r hr hid
    exact ((targetOk_transfer _ _ _ h1 ha) r hr (hid.trans hab.symm)).trans hab2
  rw [update_immutableView _ _ _ hb, h1]

/-- One worker iteration leaves every row's write-once fields untouched,
provided the processed scan's target agrees with the store. -/
lemma processScan_immutableView (env : String → EngineRun) (t : Nat) (st : WorkerState)
    (scan : Scan) (h : TargetOk st.store scan) :
    (processScan env t st scan).store.map immutableView = st.store.map immutableView := by
  have h1 : TargetOk st.store { scan with status := "running" } := h
  unfold processScan
  dsimp only
  split
  · exact update2_immutableView st.store _ _ t rfl rfl h1
  · exact update2_immutableView st.store _ _ t rfl rfl h1

/-- The fold over one tick's scan list preserves the write-once view when
every scan of the list agrees with the base store on its row's target. -/
lemma fold_immutableView (env : String → EngineRun) (t : Nat) (scans : List Scan)
    (st : WorkerState) (base : List ScanRow)
    (hbase : st.store.map immutableView = base.map immutableView)
    (hok : ∀ scan ∈ scans, TargetOk base scan) :
    ((scans.foldl (processScan env t) st).store).map immutableView =
      base.map immutableView := by
  induction scans generalizing st with
  | nil => exact hbase
  | cons x xs ih =>
    rw [List.foldl_cons]
    apply ih
    · rw [processScan_immutableView env t st x
        (targetOk_transfer _ _ _ hbase (hok x (List.mem_cons_self x xs))), hbase]
    · exact fun s hs => hok s (List.mem_cons_of_mem x hs)

/-- Under distinct row ids, every scan the worker reads back from the store
agrees with the store on its row's target. -/
lemma list_scans_targetOk (store : List ScanRow) (scans : List Scan)
    (hnd : (store.map (fun r => r.id)).Nodup)
    (hok : scanRepositoryList store (some "pending") none none = .ok scans) :
    ∀ scan ∈ scans, TargetOk store scan := by
  rw [scanRepositoryList_eq, if_neg (by simp)] at hok
  injection hok with hok
  intro scan hscan r hr hid
  rw [← hok] at hscan
  obtain ⟨r0, hr0f, hr0⟩ := List.mem_map.mp hscan
  have hr0mem : r0 ∈ store := List.mem_of_mem_filter hr0f
  subst hr0
  have hids : r.id = r0.id := hid
  have : r = r0 := List.inj_on_of_nodup_map hnd hr hr0mem hids
  rw [this]
  rfl

/-- C8 (confirmed): across a whole dispatcher tick — the only source of
update operations after creation — every stored row keeps its id, target,
options column, template selectors and tags unchanged: the status-transition
updates write only target (with the value read back from the same row),
status and `updated_at`, so Target and Options remain the values given at
creation.  The hypothesis is the `scans.id` primary-key property. -/
theorem C8_target_options_write_once (env : String → EngineRun) (t : Nat) (st : WorkerState)
    (h : (st.store.map (fun r => r.id)).Nodup) :
    (processPendingScans env t st).store.map immutableView = st.store.map immutableView := by
  unfold processPendingScans
  cases hok : scanRepositoryList st.store (some "pending") none none with
  | error e => rfl
  | ok scans =>
    exact fold_immutableView env t scans st st.store rfl (list_scans_targetOk _ _ h hok)

/-- C8 witness: a tick over a one-row store with a successful run leaves the
row's write-once view unchanged. -/
theorem C8_target_options_write_once_witness :
    (processPendingScans (fun _ => { initError := none, events := [], outcome := .success }) 1
        { store := [{ id := "s8", target := "http://x", status := "pending", createdAt := 0,
                      updatedAt := 0, startedAt := none, completedAt := none, error := none,
                      options := none, templateIDs := ["tpl"], tags := ["tag"] }],
          resultsTable := [], cancels := [] }).store.map immutableView =
      [({ id := "s8", target := "http://x", status := "pending", createdAt := 0,
          updatedAt := 0, startedAt := none, completedAt := none, error := none,
          options := none, templateIDs := ["tpl"], tags := ["tag"] } : ScanRow)].map
        immutableView :=
  C8_target_options_write_once
    (fun _ => { initError := none, events := [], outcome := .success }) 1
    { store := [{ id := "s8", target := "http://x", status := "pending", createdAt := 0,
                  updatedAt := 0, startedAt := none, completedAt := none, error := none,
                  options := none, templateIDs := ["tpl"], tags := ["tag"] }],
      resultsTable := [], cancels := [] }
    (by decide)

end NucleiDemo
